import Mathlib

/-!
Shallow embedding of `src/wallet/bitcoin.ts` (the `BitcoindWallet` JSON-RPC
wrapper of the comit-js-sdk repository).

Each wallet operation is modelled as a pure function from the stored request
configuration (`rpcRequestConfig`) and an oracle describing the remote node's
responses to: the ordered list of JSON-RPC calls the operation issues, the
value it produces, and the request configuration as it stands afterwards.
Transport-level failures are not modelled: the oracle always answers, which is
the regime all the claims below quantify over.
-/

namespace ComitSdk

/-- HTTP basic-auth credentials (`auth = { username, password }`, bitcoin.ts:44)
attached to every request. -/
structure Auth where
  username : String
  password : String
deriving DecidableEq, Repr

/-- The JSON-RPC payloads the wallet client sends, with their `params`
(bitcoin.ts: `listwallets`, `createwallet`, `importprivkey`, `getbalance`,
`getnewaddress`, `sendtoaddress`, `sendrawtransaction`, `getblockchaininfo`,
`unloadwallet`). Amounts are exact rationals. -/
inductive RpcMethod where
  | listwallets
  | createwallet (name : String)
  | importprivkey (key : String)
  | getbalance
  | getnewaddress
  | sendtoaddress (address : String) (amount : ℚ)
  | sendrawtransaction (hex : String)
  | getblockchaininfo
  | unloadwallet
deriving DecidableEq, Repr

/-- A single JSON-RPC request as issued over HTTP: the target URL, the HTTP
method, the credentials and the payload. -/
structure RpcCall where
  url : String
  httpMethod : String
  auth : Auth
  rpc : RpcMethod
deriving DecidableEq, Repr

/-- The stored request configuration (`rpcRequestConfig`, bitcoin.ts:69-73 and
the private field of `BitcoindWallet`, bitcoin.ts:85): URL scoped to the
wallet's sub-path, HTTP method, credentials. This is the wallet handle. -/
structure RpcRequestConfig where
  url : String
  method : String
  auth : Auth
deriving DecidableEq, Repr

/-- Building the request a wallet-scoped operation sends with the stored
configuration (`axios.request({ ...this.rpcRequestConfig, data: ... })`). -/
def RpcRequestConfig.call (cfg : RpcRequestConfig) (rpc : RpcMethod) : RpcCall :=
  ⟨cfg.url, cfg.method, cfg.auth, rpc⟩

/-- `export type Network = "bitcoin" | "testnet" | "regtest"` (bitcoin.ts:171). -/
inductive Network where
  | bitcoin
  | testnet
  | regtest
deriving DecidableEq, Repr

/-- The string a `Network` value stands for in the TypeScript union type. -/
def Network.toString : Network → String
  | .bitcoin => "bitcoin"
  | .testnet => "testnet"
  | .regtest => "regtest"

/-- Oracle for the remote node's responses: the `result` fields the client
reads. `wallets` answers `listwallets`, `chain` is the `chain` field of
`getblockchaininfo`'s result, the remaining fields are the `result` payloads
of the corresponding calls. -/
structure Node where
  wallets : List String
  chain : String
  balanceResult : ℚ
  newAddressResult : String
  sendToAddressResult : String
  sendRawTransactionResult : String
deriving DecidableEq, Repr

/-- Modelled from the spec: `toBitcoin` of the external `satoshi-bitcoin`
package (imported at bitcoin.ts:2; its code is not part of this repository).
The spec states the conversion is the mathematically exact base-unit
conversion: 100,000,000 satoshis equal 1 bitcoin. -/
def toBitcoin (satoshis : ℕ) : ℚ :=
  (satoshis : ℚ) / 100000000

/-- Result of running one wallet operation: the RPC calls issued, in order;
the value produced; and the request configuration as it stands afterwards
(the source never reassigns `this.rpcRequestConfig`, so every operation
leaves it as it was). -/
structure OpResult (α : Type) where
  trace : List RpcCall
  result : α
  cfgAfter : RpcRequestConfig
deriving Repr

/-- The rejection message built on a network mismatch (the template literal
at bitcoin.ts:165, which interpolates `network` twice). -/
def mismatchMessage (network : Network) : String :=
  "This wallet is only connected to the " ++ network.toString ++
    " network and cannot perform actions on the " ++ network.toString ++ " network"

/-- `assertNetwork` (bitcoin.ts:157-168): issue `getblockchaininfo`, compare
the reported `chain` with the requested network by exact string equality,
and on mismatch produce the rejection message. -/
def assertNetwork (cfg : RpcRequestConfig) (node : Node) (network : Network) :
    List RpcCall × Option String :=
  let trace := [cfg.call .getblockchaininfo]
  if node.chain ≠ network.toString then
    (trace, some (mismatchMessage network))
  else
    (trace, none)

/-- `sendToAddress` (bitcoin.ts:104-121): network assertion first, then the
`sendtoaddress` RPC with the converted amount; a rejection of the assertion
short-circuits the rest. -/
def sendToAddress (cfg : RpcRequestConfig) (node : Node) (address : String)
    (satoshis : ℕ) (network : Network) : OpResult (Except String String) :=
  match assertNetwork cfg node network with
  | (t, some msg) => ⟨t, .error msg, cfg⟩
  | (t, none) =>
      ⟨t ++ [cfg.call (.sendtoaddress address (toBitcoin satoshis))],
        .ok node.sendToAddressResult, cfg⟩

/-- `broadcastTransaction` (bitcoin.ts:123-139): network assertion first, then
the `sendrawtransaction` RPC; a rejection of the assertion short-circuits
the rest. -/
def broadcastTransaction (cfg : RpcRequestConfig) (node : Node) (hex : String)
    (network : Network) : OpResult (Except String String) :=
  match assertNetwork cfg node network with
  | (t, some msg) => ⟨t, .error msg, cfg⟩
  | (t, none) =>
      ⟨t ++ [cfg.call (.sendrawtransaction hex)],
        .ok node.sendRawTransactionResult, cfg⟩

/-- `getBalance` (bitcoin.ts:87-93): one `getbalance` RPC, returning the
node's `result`. -/
def getBalance (cfg : RpcRequestConfig) (node : Node) : OpResult ℚ :=
  ⟨[cfg.call .getbalance], node.balanceResult, cfg⟩

/-- `getAddress` (bitcoin.ts:95-102): one `getnewaddress` RPC, returning the
node's `result`. -/
def getAddress (cfg : RpcRequestConfig) (node : Node) : OpResult String :=
  ⟨[cfg.call .getnewaddress], node.newAddressResult, cfg⟩

/-- `getFee` (bitcoin.ts:141-144): returns the constant `"150"`, issuing no
RPC at all. -/
def getFee (cfg : RpcRequestConfig) : OpResult String :=
  ⟨[], "150", cfg⟩

/-- `close` (bitcoin.ts:146-155): one `unloadwallet` RPC. -/
def close (cfg : RpcRequestConfig) (_node : Node) : OpResult Unit :=
  ⟨[cfg.call .unloadwallet], (), cfg⟩

/-- JavaScript truthiness of the optional `privkey` argument (`!!privkey`,
bitcoin.ts:75): absent (`undefined`) and the empty string are falsy. -/
def truthy : Option String → Bool
  | none => false
  | some s => !(s == "")

/-- `BitcoindWallet.newInstance` (bitcoin.ts:37-83): `listwallets` against the
endpoint, `createwallet` only if the wallet name is absent from the result,
`importprivkey` against the wallet sub-path only if `privkey` is truthy, and
the returned handle is scoped to `/wallet/<walletName>`. -/
def newInstance (httpUrl username password walletName : String)
    (privkey : Option String) (node : Node) : List RpcCall × RpcRequestConfig :=
  let auth : Auth := ⟨username, password⟩
  let walletExists := walletName ∈ node.wallets
  let createCalls : List RpcCall :=
    if walletExists then [] else [⟨httpUrl, "post", auth, .createwallet walletName⟩]
  let rpcRequestConfig : RpcRequestConfig := ⟨httpUrl ++ "/wallet/" ++ walletName, "post", auth⟩
  let importCalls : List RpcCall :=
    if truthy privkey then [rpcRequestConfig.call (.importprivkey (privkey.getD ""))] else []
  (⟨httpUrl, "post", auth, .listwallets⟩ :: (createCalls ++ importCalls), rpcRequestConfig)

/-- Modelled from the spec: the effect of the construction protocol on the
external node's wallet list (the node is separate software, not code of this
repository) — after a create-wallet call for a name the node lists that
wallet, and an already-listed wallet stays listed. -/
def nodeAfterNewInstance (node : Node) (walletName : String) : Node :=
  if walletName ∈ node.wallets then node
  else { node with wallets := node.wallets ++ [walletName] }

/-- Whether an RPC payload is one of the two funds-moving calls. -/
def RpcMethod.isFundsMoving : RpcMethod → Bool
  | .sendtoaddress _ _ => true
  | .sendrawtransaction _ => true
  | _ => false

/-- Whether an RPC payload is a `createwallet` call. -/
def RpcMethod.isCreateWallet : RpcMethod → Bool
  | .createwallet _ => true
  | _ => false

/-- Whether an RPC payload is an `importprivkey` call. -/
def RpcMethod.isImportPrivkey : RpcMethod → Bool
  | .importprivkey _ => true
  | _ => false

/-- A concrete request configuration used to instantiate theorems. -/
def cfgEx : RpcRequestConfig :=
  ⟨"http://localhost:18443/wallet/demo", "post", ⟨"user", "pass"⟩⟩

/-- A concrete node oracle reporting the `bitcoin` chain. -/
def nodeMainnet : Node :=
  ⟨["demo"], "bitcoin", 0, "bcrt1qaddr", "txid-send", "txid-raw"⟩

/-- Claim C1: for every network, both `sendToAddress` and `broadcastTransaction`
issue the `getblockchaininfo` network check as their first RPC, and when the
check fails (the reported chain differs from the requested network) no
funds-moving RPC (`sendtoaddress` / `sendrawtransaction`) is ever issued. -/
theorem networkCheck_precedes_fundsMoving
    (cfg : RpcRequestConfig) (node : Node) (address hex : String)
    (satoshis : ℕ) (network : Network) :
    ((sendToAddress cfg node address satoshis network).trace.head? =
        some (cfg.call .getblockchaininfo)
      ∧ (node.chain ≠ network.toString →
          ∀ c ∈ (sendToAddress cfg node address satoshis network).trace,
            c.rpc.isFundsMoving = false))
    ∧ ((broadcastTransaction cfg node hex network).trace.head? =
        some (cfg.call .getblockchaininfo)
      ∧ (node.chain ≠ network.toString →
          ∀ c ∈ (broadcastTransaction cfg node hex network).trace,
            c.rpc.isFundsMoving = false)) := by
  unfold sendToAddress broadcastTransaction assertNetwork
  by_cases h : node.chain = network.toString <;>
    simp [h, RpcRequestConfig.call, RpcMethod.isFundsMoving]

/-- Witness for C1: a concrete mismatching run (`testnet` requested, node on
`bitcoin`) whose trace starts with the network check and holds no
funds-moving call. -/
theorem networkCheck_precedes_fundsMoving_witness :
    (sendToAddress cfgEx nodeMainnet "addr1" 50000000 Network.testnet).trace.head? =
        some (cfgEx.call .getblockchaininfo)
    ∧ ∀ c ∈ (sendToAddress cfgEx nodeMainnet "addr1" 50000000 Network.testnet).trace,
        c.rpc.isFundsMoving = false := by
  have h := networkCheck_precedes_fundsMoving cfgEx nodeMainnet "addr1" "" 50000000
    Network.testnet
  exact ⟨h.1.1, h.1.2 (by decide)⟩

/-- Claim C2: when the network check passes, the amount parameter that
`sendToAddress` hands to the `sendtoaddress` RPC is the mathematically exact
quotient satoshis / 100,000,000. -/
theorem sendToAddress_amount_exact
    (cfg : RpcRequestConfig) (node : Node) (address : String)
    (satoshis : ℕ) (network : Network) (h : node.chain = Network.toString network) :
    (sendToAddress cfg node address satoshis network).trace =
      [cfg.call .getblockchaininfo,
        cfg.call (.sendtoaddress address ((satoshis : ℚ) / 100000000))] := by
  unfold sendToAddress assertNetwork toBitcoin
  simp [h]

/-- Witness for C2: 100,000,000 satoshis are passed on as exactly `1`, and a
single satoshi as exactly `1 / 100000000`. -/
theorem sendToAddress_amount_exact_witness :
    (sendToAddress cfgEx nodeMainnet "addr1" 100000000 Network.bitcoin).trace =
      [cfgEx.call .getblockchaininfo, cfgEx.call (.sendtoaddress "addr1" 1)]
    ∧ (sendToAddress cfgEx nodeMainnet "addr1" 1 Network.bitcoin).trace =
      [cfgEx.call .getblockchaininfo,
        cfgEx.call (.sendtoaddress "addr1" (1 / 100000000))] := by
  have h1 := sendToAddress_amount_exact cfgEx nodeMainnet "addr1" 100000000
    Network.bitcoin rfl
  have h2 := sendToAddress_amount_exact cfgEx nodeMainnet "addr1" 1
    Network.bitcoin rfl
  norm_num at h1
  exact ⟨h1, h2⟩

/-- Claim C3: the network assertion inside `sendToAddress` and
`broadcastTransaction` rejects if and only if the reported chain is not
exactly string-equal to the requested network, and on exact equality the
operation proceeds to its funds-moving RPC. -/
theorem assertNetwork_mismatch_iff
    (cfg : RpcRequestConfig) (node : Node) (address hex : String)
    (satoshis : ℕ) (network : Network) :
    (((∃ msg, (sendToAddress cfg node address satoshis network).result = .error msg) ↔
        node.chain ≠ network.toString)
      ∧ (node.chain = network.toString →
          cfg.call (.sendtoaddress address (toBitcoin satoshis)) ∈
            (sendToAddress cfg node address satoshis network).trace))
    ∧ (((∃ msg, (broadcastTransaction cfg node hex network).result = .error msg) ↔
        node.chain ≠ network.toString)
      ∧ (node.chain = network.toString →
          cfg.call (.sendrawtransaction hex) ∈
            (broadcastTransaction cfg node hex network).trace)) := by
  unfold sendToAddress broadcastTransaction assertNetwork
  by_cases h : node.chain = network.toString <;> simp [h]

/-- Witness for C3: on a matching chain the send proceeds (no rejection, the
funds-moving call is in the trace), instantiated concretely. -/
theorem assertNetwork_mismatch_iff_witness :
    ((∃ msg, (sendToAddress cfgEx nodeMainnet "addr1" 7 Network.bitcoin).result =
        .error msg) ↔ nodeMainnet.chain ≠ (Network.bitcoin).toString)
    ∧ cfgEx.call (.sendtoaddress "addr1" (toBitcoin 7)) ∈
        (sendToAddress cfgEx nodeMainnet "addr1" 7 Network.bitcoin).trace := by
  have h := assertNetwork_mismatch_iff cfgEx nodeMainnet "addr1" "" 7 Network.bitcoin
  exact ⟨h.1.1, h.1.2 rfl⟩

/-- Claim C4: when the node's `listwallets` result already contains the wallet
name, `newInstance` issues no `createwallet` RPC; in particular a second run
with the same name against the node state left by the first run issues no
second `createwallet` call. -/
theorem newInstance_create_idempotent
    (httpUrl username password walletName : String)
    (privkey : Option String) (node : Node) :
    (walletName ∈ node.wallets →
      ∀ c ∈ (newInstance httpUrl username password walletName privkey node).1,
        c.rpc.isCreateWallet = false)
    ∧ ∀ privkey2,
        ∀ c ∈ (newInstance httpUrl username password walletName privkey2
            (nodeAfterNewInstance node walletName)).1,
          c.rpc.isCreateWallet = false := by
  constructor
  · intro hmem
    unfold newInstance
    by_cases ht : truthy privkey = true <;>
      simp [hmem, ht, RpcRequestConfig.call, RpcMethod.isCreateWallet]
  · intro privkey2
    have hmem : walletName ∈ (nodeAfterNewInstance node walletName).wallets := by
      unfold nodeAfterNewInstance
      by_cases h : walletName ∈ node.wallets <;> simp [h]
    unfold newInstance
    by_cases ht : truthy privkey2 = true <;>
      simp [hmem, ht, RpcRequestConfig.call, RpcMethod.isCreateWallet]

/-- Witness for C4: constructing against a node that already lists `"demo"`
issues no `createwallet` call. -/
theorem newInstance_create_idempotent_witness :
    ∀ c ∈ (newInstance "http://localhost:18443" "user" "pass" "demo"
        none nodeMainnet).1,
      c.rpc.isCreateWallet = false := by
  have h := newInstance_create_idempotent "http://localhost:18443" "user" "pass"
    "demo" none nodeMainnet
  exact h.1 (by decide)

/-- Claim C5: `newInstance` issues, in order, `listwallets` against the
endpoint, then `createwallet` exactly when the name was absent, then
`importprivkey` addressed to the wallet sub-path exactly when a key was
supplied (truthy), and the returned handle's URL is the endpoint suffixed
with `/wallet/<walletName>`. -/
theorem newInstance_call_order
    (httpUrl username password walletName : String)
    (privkey : Option String) (node : Node) :
    (newInstance httpUrl username password walletName privkey node).1 =
      [RpcCall.mk httpUrl "post" ⟨username, password⟩ .listwallets]
      ++ (if walletName ∈ node.wallets then []
          else [RpcCall.mk httpUrl "post" ⟨username, password⟩
                  (.createwallet walletName)])
      ++ (if truthy privkey then
            [RpcCall.mk (httpUrl ++ "/wallet/" ++ walletName) "post"
              ⟨username, password⟩ (.importprivkey (privkey.getD ""))]
          else [])
    ∧ (newInstance httpUrl username password walletName privkey node).2.url =
        httpUrl ++ "/wallet/" ++ walletName := by
  unfold newInstance
  constructor
  · by_cases h : walletName ∈ node.wallets <;> simp [h, RpcRequestConfig.call]
  · rfl

/-- Claim C6: `getFee` returns the literal string `"150"` for every handle,
issuing no remote call at all. -/
theorem getFee_constant (cfg : RpcRequestConfig) :
    (getFee cfg).trace = [] ∧ (getFee cfg).result = "150" :=
  ⟨rfl, rfl⟩

/-- Claim C7: whenever the network check fails, `sendToAddress` and
`broadcastTransaction` produce a rejected outcome whose message names the
caller-requested network (it interpolates `network.toString`), and the
funds-moving RPC is never issued. -/
theorem mismatch_rejects_and_blocks
    (cfg : RpcRequestConfig) (node : Node) (address hex : String)
    (satoshis : ℕ) (network : Network)
    (h : node.chain ≠ Network.toString network) :
    ((sendToAddress cfg node address satoshis network).result =
        .error (mismatchMessage network)
      ∧ ∀ c ∈ (sendToAddress cfg node address satoshis network).trace,
          c.rpc.isFundsMoving = false)
    ∧ ((broadcastTransaction cfg node hex network).result =
        .error (mismatchMessage network)
      ∧ ∀ c ∈ (broadcastTransaction cfg node hex network).trace,
          c.rpc.isFundsMoving = false)
    ∧ mismatchMessage network =
        "This wallet is only connected to the " ++ network.toString ++
          " network and cannot perform actions on the " ++ network.toString ++
          " network" := by
  unfold sendToAddress broadcastTransaction assertNetwork mismatchMessage
  simp [h, RpcRequestConfig.call, RpcMethod.isFundsMoving]

/-- Witness for C7: the spec's scenario — `sendToAddress` for 50,000,000
satoshis on `testnet` against a node reporting `bitcoin` — rejects with the
message naming `testnet` and issues no funds-moving call. -/
theorem mismatch_rejects_and_blocks_witness :
    (sendToAddress cfgEx nodeMainnet "addr1" 50000000 Network.testnet).result =
        .error (mismatchMessage Network.testnet)
    ∧ ∀ c ∈ (sendToAddress cfgEx nodeMainnet "addr1" 50000000 Network.testnet).trace,
        c.rpc.isFundsMoving = false := by
  have h := mismatch_rejects_and_blocks cfgEx nodeMainnet "addr1" "" 50000000
    Network.testnet (by decide)
  exact h.1

/-- Claim C8: the wallet handle (the stored request configuration) is
immutable: every operation — succeeding or failing — leaves it unchanged, so
it stays reusable after a failed call. -/
theorem handle_immutable
    (cfg : RpcRequestConfig) (node : Node) (address hex : String)
    (satoshis : ℕ) (network : Network) :
    (getBalance cfg node).cfgAfter = cfg
    ∧ (getAddress cfg node).cfgAfter = cfg
    ∧ (sendToAddress cfg node address satoshis network).cfgAfter = cfg
    ∧ (broadcastTransaction cfg node hex network).cfgAfter = cfg
    ∧ (getFee cfg).cfgAfter = cfg
    ∧ (close cfg node).cfgAfter = cfg := by
  unfold getBalance getAddress sendToAddress broadcastTransaction getFee close
    assertNetwork
  by_cases h : node.chain = network.toString <;> simp [h]

set_option maxRecDepth 40000 in
/-- Claim C9: the mismatch rejection message interpolates the caller-requested
network in both of its network positions, and is independent of the node's
reported chain (for chains that are themselves network identifiers, the
message does not even contain the mismatching chain string). -/
theorem mismatchMessage_names_requested_network
    (cfg : RpcRequestConfig) (network : Network) (node1 node2 : Node)
    (address : String) (satoshis : ℕ)
    (h1 : node1.chain ≠ Network.toString network)
    (h2 : node2.chain ≠ Network.toString network) :
    (∃ pre mid post, mismatchMessage network =
        pre ++ network.toString ++ mid ++ network.toString ++ post)
    ∧ (sendToAddress cfg node1 address satoshis network).result =
        (sendToAddress cfg node2 address satoshis network).result
    ∧ ∀ c : Network, c ≠ network →
        ¬ (c.toString.data <:+: (mismatchMessage network).data) := by
  refine ⟨⟨"This wallet is only connected to the ",
      " network and cannot perform actions on the ", " network", rfl⟩, ?_, ?_⟩
  · unfold sendToAddress assertNetwork
    simp [h1, h2]
  · intro c hc
    cases c <;> cases network <;> first
      | exact absurd rfl hc
      | decide

/-- Witness for C9: with `testnet` requested, a node on `bitcoin` and a node
on `regtest` produce the same rejection, and the message contains neither
mismatching chain string. -/
theorem mismatchMessage_names_requested_network_witness :
    (sendToAddress cfgEx nodeMainnet "addr1" 5 Network.testnet).result =
      (sendToAddress cfgEx { nodeMainnet with chain := "regtest" } "addr1" 5
        Network.testnet).result
    ∧ ¬ ((Network.bitcoin).toString.data <:+:
        (mismatchMessage Network.testnet).data) := by
  have h := mismatchMessage_names_requested_network cfgEx Network.testnet
    nodeMainnet { nodeMainnet with chain := "regtest" } "addr1" 5
    (by decide) (by decide)
  exact ⟨h.2.1, h.2.2 Network.bitcoin (by decide)⟩

/-- Claim C10: `newInstance` issues an `importprivkey` RPC exactly when the
supplied `privkey` is truthy — never when it is omitted or the empty string,
and always (addressed to the wallet sub-path) when it is non-empty. -/
theorem importprivkey_iff_truthy
    (httpUrl username password walletName : String)
    (privkey : Option String) (node : Node) :
    (truthy privkey = false →
      ∀ c ∈ (newInstance httpUrl username password walletName privkey node).1,
        c.rpc.isImportPrivkey = false)
    ∧ (truthy privkey = true →
        RpcCall.mk (httpUrl ++ "/wallet/" ++ walletName) "post"
            ⟨username, password⟩ (.importprivkey (privkey.getD "")) ∈
          (newInstance httpUrl username password walletName privkey node).1) := by
  unfold newInstance
  constructor
  · intro hf
    by_cases hmem : walletName ∈ node.wallets <;>
      simp [hf, hmem, RpcRequestConfig.call, RpcMethod.isImportPrivkey]
  · intro ht
    by_cases hmem : walletName ∈ node.wallets <;>
      simp [ht, hmem, RpcRequestConfig.call]

/-- Witness for C10: with `privkey` the empty string no `importprivkey` call
appears; with a non-empty key the import call to `/wallet/demo` appears. -/
theorem importprivkey_iff_truthy_witness :
    (∀ c ∈ (newInstance "http://localhost:18443" "user" "pass" "demo"
        (some "") nodeMainnet).1,
      c.rpc.isImportPrivkey = false)
    ∧ RpcCall.mk "http://localhost:18443/wallet/demo" "post" ⟨"user", "pass"⟩
        (.importprivkey "key1") ∈
      (newInstance "http://localhost:18443" "user" "pass" "demo"
        (some "key1") nodeMainnet).1 := by
  have h1 := importprivkey_iff_truthy "http://localhost:18443" "user" "pass"
    "demo" (some "") nodeMainnet
  have h2 := importprivkey_iff_truthy "http://localhost:18443" "user" "pass"
    "demo" (some "key1") nodeMainnet
  exact ⟨h1.1 (by decide), h2.2 (by decide)⟩

end ComitSdk
